import Mathlib

/-!
Verification of the EasyProject MCP server core (shallow embedding).

The definitions below are translated from the Rust sources:
  * `src/api/client.rs`   — HTTP request executor, cache-aware operation
    layer, cache keys, enumeration scanner;
  * `src/mcp/server.rs`   — JSON-RPC session state machine and run loop;
  * `src/mcp/transport.rs`— message receive path (line parse outcome);
  * `src/mcp/error.rs`    — error taxonomy and JSON-RPC error conversion;
  * `src/tools/registry.rs` — tool lookup and execution dispatch.

Library behaviour that lives outside the repository (serde encoding and
decoding of the domain structs, the JSON text parser of `serde_json`, the
`Display` rendering of HTTP status codes, the upstream HTTP server) is
modelled by explicit oracle parameters, so every theorem quantifies over
all behaviours of those collaborators.
-/

namespace EasyProj

/-- JSON values, the model of `serde_json::Value`. -/
inductive JVal where
  | null : JVal
  | jbool (b : Bool) : JVal
  | num (n : Int) : JVal
  | str (s : String) : JVal
  | arr (xs : List JVal) : JVal
  | obj (fs : List (String × JVal)) : JVal

/-- `value.as_object().map_or(false, |o| o.is_empty())` from `update_issue`
(client.rs:339): true exactly for the empty JSON object. -/
def JVal.isEmptyObj : JVal → Bool
  | .obj fs => fs.isEmpty
  | _ => false

/-- Association-list lookup, the model of `moka::Cache::get`. -/
def alGet (l : List (String × JVal)) (k : String) : Option JVal :=
  match l with
  | [] => none
  | (k₁, v) :: rest => if k₁ = k then some v else alGet rest k

/-- Association-list upsert, the model of `moka::Cache::insert`. -/
def alPut (l : List (String × JVal)) (k : String) (v : JVal) : List (String × JVal) :=
  match l with
  | [] => [(k, v)]
  | (k₁, v₁) :: rest => if k₁ = k then (k, v) :: rest else (k₁, v₁) :: alPut rest k v

/-- `ApiError` from `src/api/error.rs` (only the variants the embedded code
constructs: `Http` carries the transport error text, `Api` carries the
numeric status and a message). -/
inductive ApiError where
  | http (e : String) : ApiError
  | api (status : Nat) (message : String) : ApiError
deriving DecidableEq, Repr

/-- `ApiResult<T>` from `src/api/error.rs`. -/
abbrev ApiResult (T : Type) : Type := Except ApiError T

/-- Rust `char::is_whitespace`, the test `str::trim` strips by: the full
Unicode `White_Space` property (PropList.txt) — TAB, LF, VT (U+000B),
FF (U+000C), CR, SPACE, NEL (U+0085), NBSP (U+00A0), OGHAM SPACE MARK
(U+1680), the U+2000..U+200A spaces, LINE/PARAGRAPH SEPARATOR
(U+2028/U+2029), NARROW NBSP (U+202F), MEDIUM MATH SPACE (U+205F) and
IDEOGRAPHIC SPACE (U+3000). -/
def rustIsWhitespace (c : Char) : Bool :=
  c.toNat = 0x09 || c.toNat = 0x0A || c.toNat = 0x0B || c.toNat = 0x0C ||
  c.toNat = 0x0D || c.toNat = 0x20 || c.toNat = 0x85 || c.toNat = 0xA0 ||
  c.toNat = 0x1680 || (0x2000 ≤ c.toNat && c.toNat ≤ 0x200A) ||
  c.toNat = 0x2028 || c.toNat = 0x2029 || c.toNat = 0x202F ||
  c.toNat = 0x205F || c.toNat = 0x3000

/-- Rust `str::trim`: drop leading and trailing whitespace. -/
def rustTrim (s : String) : String :=
  String.mk (((s.data.dropWhile rustIsWhitespace).reverse.dropWhile rustIsWhitespace).reverse)

/-- Rust `bool` `Display` (used by `format!` in the cache keys). -/
def boolStr (b : Bool) : String := if b then "true" else "false"

/-- Parameters of `EasyProjectClient::list_projects` (client.rs:152). -/
structure ListProjectsParams where
  limit : Option Nat
  offset : Option Nat
  include_archived : Option Bool
  easy_query_q : Option String
  set_filter : Option Bool
  sort : Option String
deriving DecidableEq, Repr

/-- The cache key computed by `list_projects` (client.rs:153-160):
`format!("projects_{}_{}_{}_{}_{}_{}", limit.unwrap_or(25),
offset.unwrap_or(0), include_archived.unwrap_or(false),
easy_query_q.unwrap_or(""), set_filter.unwrap_or(false), sort.unwrap_or(""))`. -/
def listProjectsCacheKey (p : ListProjectsParams) : String :=
  "projects_" ++ toString (p.limit.getD 25) ++ "_" ++ toString (p.offset.getD 0)
    ++ "_" ++ boolStr (p.include_archived.getD false) ++ "_" ++ p.easy_query_q.getD ""
    ++ "_" ++ boolStr (p.set_filter.getD false) ++ "_" ++ p.sort.getD ""

/-- Parameters of `EasyProjectClient::list_users` (client.rs:349). -/
structure ListUsersParams where
  limit : Option Nat
  offset : Option Nat
  easy_query_q : Option String
  set_filter : Option Bool
  sort : Option String
  status : Option String
deriving DecidableEq, Repr

/-- The cache key computed by `list_users` (client.rs:350-356):
`format!("users_{}_{}_{}_{}_{}", limit.unwrap_or(25), offset.unwrap_or(0),
easy_query_q.unwrap_or(""), set_filter.unwrap_or(false), sort.unwrap_or(""))`.
Note the `status` parameter does not occur in the format string. -/
def listUsersCacheKey (p : ListUsersParams) : String :=
  "users_" ++ toString (p.limit.getD 25) ++ "_" ++ toString (p.offset.getD 0)
    ++ "_" ++ p.easy_query_q.getD "" ++ "_" ++ boolStr (p.set_filter.getD false)
    ++ "_" ++ p.sort.getD ""

/-- `list_users` parameter set with every parameter absent. -/
def usersParamsNoStatus : ListUsersParams :=
  { limit := none, offset := none, easy_query_q := none, set_filter := none,
    sort := none, status := none }

/-- `list_users` parameter set identical to `usersParamsNoStatus` except the
`status` filter is present. -/
def usersParamsLocked : ListUsersParams :=
  { limit := none, offset := none, easy_query_q := none, set_filter := none,
    sort := none, status := some "locked" }

/-- `list_projects` parameter set with every parameter absent. -/
def projectsParamsAbsent : ListProjectsParams :=
  { limit := none, offset := none, include_archived := none, easy_query_q := none,
    set_filter := none, sort := none }

/-- `list_projects` parameter set with `limit` explicitly set to the default 25. -/
def projectsParamsLimit25 : ListProjectsParams :=
  { limit := some 25, offset := none, include_archived := none, easy_query_q := none,
    set_filter := none, sort := none }

/-- Parameters of `EasyProjectClient::list_issues` (client.rs:244). -/
structure ListIssuesParams where
  project_id : Option Int
  limit : Option Nat
  offset : Option Nat
  includes : Option (List String)
  easy_query_q : Option String
  set_filter : Option Bool
  sort : Option String
  assigned_to_id : Option Int
  status_id : Option Int
  tracker_id : Option Int
  priority_id : Option Int
deriving DecidableEq, Repr

/-- The cache key computed by `list_issues` (client.rs:245-257). -/
def listIssuesCacheKey (p : ListIssuesParams) : String :=
  "issues_" ++ (match p.project_id with | some id => toString id | none => "all")
    ++ "_" ++ toString (p.limit.getD 25) ++ "_" ++ toString (p.offset.getD 0)
    ++ "_" ++ (match p.includes with | some i => String.intercalate "," i | none => "none")
    ++ "_" ++ p.easy_query_q.getD "" ++ "_" ++ boolStr (p.set_filter.getD false)
    ++ "_" ++ p.sort.getD "" ++ "_" ++ toString (p.assigned_to_id.getD 0)
    ++ "_" ++ toString (p.status_id.getD 0) ++ "_" ++ toString (p.tracker_id.getD 0)
    ++ "_" ++ toString (p.priority_id.getD 0)

/-! ## HTTP request executor (client.rs:60-104) -/

/-- An outbound HTTP request as assembled by the operation layer. -/
structure Request where
  method : String
  url : String
  query : List (String × String)
  headers : List (String × String)
  body : Option JVal

/-- What the HTTP collaborator does with one request: either `send()` fails,
or a response arrives with a status code and a body-read outcome
(`response.text()` may itself fail). -/
inductive SendResult where
  | sendErr (e : String) : SendResult
  | response (status : Nat) (text : Except String String) : SendResult

/-- The external collaborators of the client: the upstream HTTP server, the
JSON text parser of `serde_json`, and the `Display` rendering of
`reqwest::StatusCode` used inside `format!("HTTP error {}", status)`. -/
structure Env where
  upstream : Request → SendResult
  parseJson : String → Except String JVal
  statusDisplay : Nat → String

/-- The configuration-derived part of `EasyProjectClient`: base URL, API key,
and whether the optional cache / rate limiter were constructed. -/
structure Client where
  base_url : String
  api_key : String
  cacheEnabled : Bool
  rlEnabled : Bool

/-- The mutable world of one client: the shared cache contents, the number of
rate-limiter admissions performed, and the log of HTTP requests issued. -/
structure CState where
  cache : List (String × JVal)
  acquires : Nat
  httpLog : List Request

/-- `EasyProjectClient::add_auth` (client.rs:61-63). -/
def add_auth (cl : Client) (r : Request) : Request :=
  { r with headers := r.headers ++ [("X-Redmine-API-Key", cl.api_key)] }

/-- `reqwest::StatusCode::is_success`: `200 ≤ s < 300`. -/
def statusIsSuccess (s : Nat) : Bool := 200 ≤ s && s < 300

/-- `EasyProjectClient::execute_request` (client.rs:66-104):
rate limiting, send, status classification, empty-body tolerance, JSON parse. -/
def execute_request (cl : Client) (env : Env) (req : Request) (s : CState) :
    ApiResult JVal × CState :=
  let s₁ : CState := if cl.rlEnabled then { s with acquires := s.acquires + 1 } else s
  let s₂ : CState := { s₁ with httpLog := s₁.httpLog ++ [req] }
  match env.upstream req with
  | .sendErr e => (.error (.http e), s₂)
  | .response status text =>
    if statusIsSuccess status = false then
      let error_text := match text with
        | .ok t => t
        | .error _ => "Neznámá chyba"
      (.error (.api status ("HTTP error " ++ env.statusDisplay status ++ ": " ++ error_text)), s₂)
    else
      match text with
      | .error e => (.error (.http e), s₂)
      | .ok response_text =>
        if rustTrim response_text = "" then
          (.ok (JVal.obj []), s₂)
        else
          match env.parseJson response_text with
          | .ok v => (.ok v, s₂)
          | .error e =>
            (.error (.api 500 ("Chyba parsování JSON: " ++ e ++ ". Response: " ++ response_text)), s₂)

/-- `EasyProjectClient::parse_response` (client.rs:680-688); `dec` stands for
`serde_json::from_value::<T>`. -/
def parse_response {T : Type} (dec : JVal → Except String T) (v : JVal) : ApiResult T :=
  match dec v with
  | .ok t => .ok t
  | .error e => .error (.api 500 ("Chyba parsování JSON: " ++ e))

/-- `EasyProjectClient::get_cached_or_fetch` (client.rs:107-138); `enc` and
`dec` stand for `serde_json::to_value` and `serde_json::from_value`. -/
def get_cached_or_fetch {T : Type} (cl : Client)
    (enc : T → Except String JVal) (dec : JVal → Except String T)
    (cache_key : String) (fetch : CState → ApiResult T × CState) (s : CState) :
    ApiResult T × CState :=
  match (if cl.cacheEnabled then alGet s.cache cache_key else none) with
  | some cached_value =>
    match dec cached_value with
    | .ok t => (.ok t, s)
    | .error e => (.error (.api 500 ("Chyba deserializace z cache: " ++ e)), s)
  | none =>
    match fetch s with
    | (.error e, s₁) => (.error e, s₁)
    | (.ok result, s₁) =>
      if cl.cacheEnabled then
        match enc result with
        | .ok value => (.ok result, { s₁ with cache := alPut s₁.cache cache_key value })
        | .error e => (.error (.api 500 ("Chyba serializace do cache: " ++ e)), s₁)
      else (.ok result, s₁)

/-- `EasyProjectClient::invalidate_cache` (client.rs:141-148): clears the
whole cache regardless of the pattern. -/
def invalidate_cache (cl : Client) (_pattern : String) (s : CState) : CState :=
  if cl.cacheEnabled then { s with cache := [] } else s

/-! ## Domain response models (src/api/models.rs, fields used by the
embedded operations) -/

/-- An id–name pair (`Tracker`, `IssueStatus`, `Priority` in models.rs all
carry `id: i32, name: String`). -/
structure NamedId where
  id : Int
  name : String
deriving DecidableEq, Repr

/-- `Issue` (models.rs), restricted to the fields the embedded code reads. -/
structure Issue where
  id : Int
  subject : String
  status : NamedId
  priority : NamedId
  tracker : NamedId
deriving DecidableEq, Repr

/-- `IssuesResponse` (models.rs:239-247). -/
structure IssuesResponse where
  issues : List Issue
  total_count : Option Int
deriving DecidableEq, Repr

/-- `IssueResponse` (models.rs:250-252). -/
structure IssueResponse where
  issue : Issue
deriving DecidableEq, Repr

/-- `Project` (models.rs), restricted to identifying fields. -/
structure Project where
  id : Int
  name : String
deriving DecidableEq, Repr

/-- `ProjectsResponse` (models.rs:223-231). -/
structure ProjectsResponse where
  projects : List Project
  total_count : Option Int
deriving DecidableEq, Repr

/-- `ProjectResponse` (models.rs:234-236). -/
structure ProjectResponse where
  project : Project
deriving DecidableEq, Repr

/-! ## Cache-aware operations (client.rs:150-452) -/

/-- Query-parameter assembly of `list_projects` (client.rs:164-181).
`include_archived` is never pushed; `easy_query_q` forces `set_filter=1`. -/
def listProjectsQuery (p : ListProjectsParams) : List (String × String) :=
  (match p.limit with | some l => [("limit", toString l)] | none => [])
  ++ (match p.offset with | some o => [("offset", toString o)] | none => [])
  ++ (match p.easy_query_q with
      | some q => [("easy_query_q", q), ("set_filter", "1")]
      | none => match p.set_filter with
        | some true => [("set_filter", "1")]
        | _ => [])
  ++ (match p.sort with | some so => [("sort", so)] | none => [])

/-- The `async` fetch block of `list_projects` (client.rs:162-192). -/
def listProjectsFetch (cl : Client) (env : Env)
    (dec : JVal → Except String ProjectsResponse) (p : ListProjectsParams)
    (s : CState) : ApiResult ProjectsResponse × CState :=
  let req := add_auth cl
    { method := "GET", url := cl.base_url ++ "/projects.json",
      query := listProjectsQuery p, headers := [], body := none }
  match execute_request cl env req s with
  | (.error e, s₁) => (.error e, s₁)
  | (.ok v, s₁) => (parse_response dec v, s₁)

/-- `EasyProjectClient::list_projects` (client.rs:152-193). -/
def list_projects (cl : Client) (env : Env)
    (enc : ProjectsResponse → Except String JVal)
    (dec : JVal → Except String ProjectsResponse)
    (p : ListProjectsParams) (s : CState) : ApiResult ProjectsResponse × CState :=
  get_cached_or_fetch cl enc dec (listProjectsCacheKey p) (listProjectsFetch cl env dec p) s

/-- Query-parameter assembly of `list_issues` (client.rs:260-296). -/
def listIssuesQuery (p : ListIssuesParams) : List (String × String) :=
  (match p.project_id with | some id => [("project_id", toString id)] | none => [])
  ++ (match p.limit with | some l => [("limit", toString l)] | none => [])
  ++ (match p.offset with | some o => [("offset", toString o)] | none => [])
  ++ (match p.includes with | some i => [("include", String.intercalate "," i)] | none => [])
  ++ (match p.easy_query_q with
      | some q => [("easy_query_q", q), ("set_filter", "1")]
      | none => match p.set_filter with
        | some true => [("set_filter", "1")]
        | _ => [])
  ++ (match p.sort with | some so => [("sort", so)] | none => [])
  ++ (match p.assigned_to_id with | some a => [("assigned_to_id", toString a)] | none => [])
  ++ (match p.status_id with | some a => [("status_id", toString a)] | none => [])
  ++ (match p.tracker_id with | some a => [("tracker_id", toString a)] | none => [])
  ++ (match p.priority_id with | some a => [("priority_id", toString a)] | none => [])

/-- The `async` fetch block of `list_issues` (client.rs:259-303). -/
def listIssuesFetch (cl : Client) (env : Env)
    (dec : JVal → Except String IssuesResponse) (p : ListIssuesParams)
    (s : CState) : ApiResult IssuesResponse × CState :=
  let req := add_auth cl
    { method := "GET", url := cl.base_url ++ "/issues.json",
      query := listIssuesQuery p, headers := [], body := none }
  match execute_request cl env req s with
  | (.error e, s₁) => (.error e, s₁)
  | (.ok v, s₁) => (parse_response dec v, s₁)

/-- `EasyProjectClient::list_issues` (client.rs:244-304). -/
def list_issues (cl : Client) (env : Env)
    (enc : IssuesResponse → Except String JVal)
    (dec : JVal → Except String IssuesResponse)
    (p : ListIssuesParams) (s : CState) : ApiResult IssuesResponse × CState :=
  get_cached_or_fetch cl enc dec (listIssuesCacheKey p) (listIssuesFetch cl env dec p) s

/-- The GET request of `get_issue` (client.rs:310-314). -/
def getIssueReq (cl : Client) (id : Int) (incl : Option (List String)) : Request :=
  add_auth cl
    { method := "GET", url := cl.base_url ++ "/issues/" ++ toString id ++ ".json",
      query := (match incl with
        | some i => [("include", String.intercalate "," i)]
        | none => []),
      headers := [], body := none }

/-- The `async` fetch block of `get_issue` (client.rs:309-319). -/
def getIssueFetch (cl : Client) (env : Env)
    (dec : JVal → Except String IssueResponse) (id : Int) (incl : Option (List String))
    (s : CState) : ApiResult IssueResponse × CState :=
  match execute_request cl env (getIssueReq cl id incl) s with
  | (.error e, s₁) => (.error e, s₁)
  | (.ok v, s₁) => (parse_response dec v, s₁)

/-- `EasyProjectClient::get_issue` (client.rs:306-320); key `issue_{id}`. -/
def get_issue (cl : Client) (env : Env)
    (enc : IssueResponse → Except String JVal)
    (dec : JVal → Except String IssueResponse)
    (id : Int) (incl : Option (List String)) (s : CState) :
    ApiResult IssueResponse × CState :=
  get_cached_or_fetch cl enc dec ("issue_" ++ toString id) (getIssueFetch cl env dec id incl) s

/-- `EasyProjectClient::create_issue` (client.rs:322-329); `issue_data` is the
serialized `CreateIssueRequest` body. No cache invalidation is performed. -/
def create_issue (cl : Client) (env : Env)
    (dec : JVal → Except String IssueResponse)
    (issue_data : JVal) (s : CState) : ApiResult IssueResponse × CState :=
  let req := add_auth cl
    { method := "POST", url := cl.base_url ++ "/issues.json",
      query := [], headers := [], body := some issue_data }
  match execute_request cl env req s with
  | (.error e, s₁) => (.error e, s₁)
  | (.ok v, s₁) => (parse_response dec v, s₁)

/-- The PUT request of `update_issue` (client.rs:332-334). -/
def updateIssueReq (cl : Client) (id : Int) (issue_data : JVal) : Request :=
  add_auth cl
    { method := "PUT", url := cl.base_url ++ "/issues/" ++ toString id ++ ".json",
      query := [], headers := [], body := some issue_data }

/-- `EasyProjectClient::update_issue` (client.rs:331-345): an empty-object
response triggers a re-fetch through `get_issue`. No cache invalidation. -/
def update_issue (cl : Client) (env : Env)
    (enc : IssueResponse → Except String JVal)
    (dec : JVal → Except String IssueResponse)
    (id : Int) (issue_data : JVal) (s : CState) : ApiResult IssueResponse × CState :=
  match execute_request cl env (updateIssueReq cl id issue_data) s with
  | (.error e, s₁) => (.error e, s₁)
  | (.ok v, s₁) =>
    if v.isEmptyObj then get_issue cl env enc dec id none s₁
    else (parse_response dec v, s₁)

/-- `EasyProjectClient::create_project` (client.rs:211-218); `project_data`
is the serialized `CreateProjectRequest` body. No cache invalidation. -/
def create_project (cl : Client) (env : Env)
    (dec : JVal → Except String ProjectResponse)
    (project_data : JVal) (s : CState) : ApiResult ProjectResponse × CState :=
  let req := add_auth cl
    { method := "POST", url := cl.base_url ++ "/projects.json",
      query := [], headers := [], body := some project_data }
  match execute_request cl env req s with
  | (.error e, s₁) => (.error e, s₁)
  | (.ok v, s₁) => (parse_response dec v, s₁)

/-- `EasyProjectClient::update_project` (client.rs:220-227). No cache
invalidation. -/
def update_project (cl : Client) (env : Env)
    (dec : JVal → Except String ProjectResponse)
    (id : Int) (project_data : JVal) (s : CState) : ApiResult ProjectResponse × CState :=
  let req := add_auth cl
    { method := "PUT", url := cl.base_url ++ "/projects/" ++ toString id ++ ".json",
      query := [], headers := [], body := some project_data }
  match execute_request cl env req s with
  | (.error e, s₁) => (.error e, s₁)
  | (.ok v, s₁) => (parse_response dec v, s₁)

/-- `EasyProjectClient::delete_project` (client.rs:229-240): the only project
mutation that invalidates (it clears the whole cache, twice). -/
def delete_project (cl : Client) (env : Env) (id : Int) (s : CState) :
    ApiResult Unit × CState :=
  let req := add_auth cl
    { method := "DELETE", url := cl.base_url ++ "/projects/" ++ toString id ++ ".json",
      query := [], headers := [], body := none }
  match execute_request cl env req s with
  | (.error e, s₁) => (.error e, s₁)
  | (.ok _, s₁) =>
    let s₂ := invalidate_cache cl "projects" s₁
    let s₃ := invalidate_cache cl ("project_" ++ toString id) s₂
    (.ok (), s₃)

/-! ## Enumeration scanner (client.rs:592-678) -/

/-- `EnumerationValue` (used by `get_issue_enumerations`): an id–name pair. -/
structure EnumerationValue where
  id : Int
  name : String
deriving DecidableEq, Repr

/-- `IssueEnumerationsResponse` as assembled in client.rs:673-677. -/
structure IssueEnumerationsResponse where
  statuses : List EnumerationValue
  priorities : List EnumerationValue
  trackers : List EnumerationValue
deriving DecidableEq, Repr

/-- `HashMap::insert` on an association list keyed by `i32`: replaces the
value when the key is present, appends otherwise. -/
def mapInsert (m : List (Int × String)) (k : Int) (v : String) : List (Int × String) :=
  match m with
  | [] => [(k, v)]
  | (k₁, v₁) :: rest => if k₁ = k then (k, v) :: rest else (k₁, v₁) :: mapInsert rest k v

/-- The three accumulator maps of the scan (client.rs:601-603). -/
structure EnumAcc where
  statuses : List (Int × String)
  priorities : List (Int × String)
  trackers : List (Int × String)
deriving DecidableEq, Repr

/-- Why the scan loop stopped. -/
inductive StopReason where
  | cap : StopReason
  | emptyPage : StopReason
  | totalReached : StopReason
deriving DecidableEq, Repr

/-- The per-issue accumulation of client.rs:638-642. -/
def insertIssue (a : EnumAcc) (i : Issue) : EnumAcc :=
  { statuses := mapInsert a.statuses i.status.id i.status.name,
    priorities := mapInsert a.priorities i.priority.id i.priority.name,
    trackers := mapInsert a.trackers i.tracker.id i.tracker.name }

/-- `for issue in &response.issues { ... insert ... }` (client.rs:638-642). -/
def insertPage (acc : EnumAcc) (issues : List Issue) : EnumAcc :=
  issues.foldl insertIssue acc

/-- Rust `usize as i32` (client.rs:645, `response.issues.len() as i32`):
two's-complement wrap into `[-2^31, 2^31)`. -/
def i32OfLen (n : Nat) : Int := (((n : Int) + 2 ^ 31) % 2 ^ 32) - 2 ^ 31

/-- Rust `i32 as u32` (client.rs:648, `total as u32`): two's-complement
reinterpretation into `[0, 2^32)`. -/
def u32OfI32 (t : Int) : Nat := (t % 2 ^ 32).toNat

/-- The scan loop of `get_issue_enumerations` (client.rs:605-652).
`fetchPage off` stands for `self.list_issues(project_id, Some(100),
Some(off), None, None, None, None, None, None, None, None)` — the page the
issue-list operation yields at that offset (whether served from cache or
network); a `?`-propagated failure of that call aborts the whole scan.
Also returns the number of page fetches performed and the stop reason.
The first argument counts the remaining allowed iterations
(`max_iterations - iteration`, source checks `iteration > max_iterations`
at the top of the loop): the source increments `iteration` where this
recursion decrements `remaining`, which is the same control flow. -/
def enumGo (fetchPage : Nat → ApiResult IssuesResponse) :
    Nat → Nat → EnumAcc → Nat → Except ApiError (EnumAcc × Nat × StopReason)
  | 0, _, acc, fetches => .ok (acc, fetches, .cap)
  | remaining + 1, offset, acc, fetches =>
    match fetchPage offset with
    | .error e => .error e
    | .ok resp =>
      if resp.issues.isEmpty then .ok (acc, fetches + 1, .emptyPage)
      else
        if offset + 100 ≥ u32OfI32 (resp.total_count.getD (i32OfLen resp.issues.length)) then
          .ok (insertPage acc resp.issues, fetches + 1, .totalReached)
        else enumGo fetchPage remaining (offset + 100) (insertPage acc resp.issues) (fetches + 1)

/-- The scan loop started as in client.rs:605-608 (`offset = 0`,
`iteration = 0` i.e. 20 remaining iterations, empty maps). -/
def enumRun (fetchPage : Nat → ApiResult IssuesResponse) :
    Except ApiError (EnumAcc × Nat × StopReason) :=
  enumGo fetchPage 20 0 ⟨[], [], []⟩ 0

/-- The sort key of client.rs:658/663/668 (`sort_by_key(|v| v.id)`). -/
def evLE (a b : EnumerationValue) : Prop := a.id ≤ b.id

instance : DecidableRel evLE := fun a b => inferInstanceAs (Decidable (a.id ≤ b.id))

instance : IsTotal EnumerationValue evLE := ⟨fun a b => Int.le_total a.id b.id⟩

instance : IsTrans EnumerationValue evLE := ⟨fun _ _ _ hab hbc => le_trans hab hbc⟩

/-- `into_iter().map(EnumerationValue).collect()` followed by
`sort_by_key(|v| v.id)` (client.rs:655-668). -/
def toSortedList (m : List (Int × String)) : List EnumerationValue :=
  List.insertionSort evLE (m.map fun kv => { id := kv.1, name := kv.2 })

/-- `EasyProjectClient::get_issue_enumerations` (client.rs:596-678). -/
def get_issue_enumerations (fetchPage : Nat → ApiResult IssuesResponse) :
    ApiResult IssueEnumerationsResponse :=
  match enumRun fetchPage with
  | .error e => .error e
  | .ok (acc, _, _) =>
    .ok { statuses := toSortedList acc.statuses,
          priorities := toSortedList acc.priorities,
          trackers := toSortedList acc.trackers }

/-- Modelled from the spec (C7's stop rule, NOT from the source): stop when
the page is empty, or when the running offset — compared as an ordinary
integer, with no `i32 as u32` cast — reaches the reported total count, or
after 20 pages. Used only to compare the claimed behaviour with `enumGo`. -/
def claimEnumGo (fetchPage : Nat → ApiResult IssuesResponse) :
    Nat → Nat → EnumAcc → Nat → Except ApiError (EnumAcc × Nat × StopReason)
  | 0, _, acc, fetches => .ok (acc, fetches, .cap)
  | remaining + 1, offset, acc, fetches =>
    match fetchPage offset with
    | .error e => .error e
    | .ok resp =>
      if resp.issues.isEmpty then .ok (acc, fetches + 1, .emptyPage)
      else
        if ((offset : Int) + 100) ≥ resp.total_count.getD (i32OfLen resp.issues.length) then
          .ok (insertPage acc resp.issues, fetches + 1, .totalReached)
        else claimEnumGo fetchPage remaining (offset + 100) (insertPage acc resp.issues) (fetches + 1)

/-- The claimed scan, started like `enumRun`. -/
def claimEnumRun (fetchPage : Nat → ApiResult IssuesResponse) :
    Except ApiError (EnumAcc × Nat × StopReason) :=
  claimEnumGo fetchPage 20 0 ⟨[], [], []⟩ 0

/-- Number of page fetches the code's scan performs. -/
def enumFetches (fetchPage : Nat → ApiResult IssuesResponse) : Option Nat :=
  match enumRun fetchPage with
  | .ok (_, n, _) => some n
  | .error _ => none

/-- The code's stop reason. -/
def enumStop (fetchPage : Nat → ApiResult IssuesResponse) : Option StopReason :=
  match enumRun fetchPage with
  | .ok (_, _, r) => some r
  | .error _ => none

/-- Number of page fetches the claimed stop rule would perform. -/
def claimFetches (fetchPage : Nat → ApiResult IssuesResponse) : Option Nat :=
  match claimEnumRun fetchPage with
  | .ok (_, n, _) => some n
  | .error _ => none

/-- An upstream whose issue list reports `total_count = -1` (an `i32` the
wire format admits) and returns one issue per page. -/
def issNeg : Issue :=
  { id := 1, subject := "x", status := ⟨1, "New"⟩,
    priority := ⟨1, "Normal"⟩, tracker := ⟨1, "Task"⟩ }

/-- Pages of the adversarial upstream: nonempty, `total_count = -1`. -/
def pagesNeg : Nat → ApiResult IssuesResponse :=
  fun _ => .ok { issues := [issNeg], total_count := some (-1) }

/-- The issues of the 150-issue upstream of Scenario C. -/
def mkIssue150 (n : Nat) : Issue :=
  { id := Int.ofNat n, subject := "i", status := ⟨1, "New"⟩,
    priority := ⟨2, "Normal"⟩, tracker := ⟨3, "Task"⟩ }

/-- The 150-issue upstream with page size 100: offset 0 yields 100 issues,
offset 100 yields 50, every page reports `total_count = 150`. -/
def pages150 (off : Nat) : IssuesResponse :=
  { issues := (List.range (min 100 (150 - off))).map (fun k => mkIssue150 (off + k)),
    total_count := some 150 }

/-- The 150-issue upstream as a fetch function that always succeeds. -/
def fetch150 : Nat → ApiResult IssuesResponse := fun off => .ok (pages150 off)

/-! ## MCP protocol types (src/mcp/protocol.rs, src/mcp/error.rs) -/

/-- `ClientInfo` (protocol.rs:66-70). -/
structure ClientInfo where
  name : String
  version : String
deriving DecidableEq, Repr

/-- `InitializeParams` (protocol.rs:49-56); the `capabilities` field is
carried but never read by the handlers, so it is kept as a raw value. -/
structure InitParams where
  protocol_version : String
  capabilities : JVal
  client_info : ClientInfo

/-- `ServerInfo` (protocol.rs:111-115). -/
structure ServerInfo where
  name : String
  version : String
deriving DecidableEq, Repr

/-- `InitializeResult` (protocol.rs:73-82); the fixed capability block is
kept as a raw value. -/
structure InitResult where
  protocol_version : String
  capabilities : JVal
  server_info : ServerInfo
  instructions : Option String

/-- The constant `ServerCapabilities` block of server.rs:145-157. -/
def serverCapabilities : JVal :=
  .obj [("logging", .obj []),
        ("prompts", .obj [("listChanged", .jbool false)]),
        ("resources", .obj [("subscribe", .jbool false), ("listChanged", .jbool false)]),
        ("tools", .obj [("listChanged", .jbool false)])]

/-- The `InitializeResult` built by `handle_initialize` (server.rs:143-163). -/
def mkInitResult (name version : String) : InitResult :=
  { protocol_version := "2024-11-05",
    capabilities := serverCapabilities,
    server_info := { name := name, version := version },
    instructions := some "EasyProject MCP Server pro správu projektů, úkolů a uživatelů prostřednictvím EasyProject API." }

/-- `CallToolParams` (protocol.rs:153-158). -/
structure CallToolParams where
  name : String
  arguments : Option JVal

/-- `CallToolResult` (protocol.rs:160-166). -/
structure CallToolResult where
  content : List JVal
  is_error : Option Bool

/-- `Tool` (protocol.rs:131-137); the input schema is kept as a raw value. -/
structure ToolDef where
  name : String
  description : String
  input_schema : JVal

/-- `JsonRpcError` (error.rs:53-59). -/
structure JsonRpcError where
  code : Int
  message : String
  data : Option JVal

/-- `JsonRpcError::parse_error` (error.rs:62-68). -/
def JsonRpcError.parseError : JsonRpcError :=
  { code := -32700, message := "Parse error", data := none }

/-- `JsonRpcError::invalid_request` (error.rs:70-76). -/
def JsonRpcError.invalidRequest : JsonRpcError :=
  { code := -32600, message := "Invalid Request", data := none }

/-- `JsonRpcError::method_not_found` (error.rs:78-84). -/
def JsonRpcError.methodNotFound (method : String) : JsonRpcError :=
  { code := -32601, message := "Method not found",
    data := some (.obj [("method", .str method)]) }

/-- `JsonRpcError::invalid_params` (error.rs:86-92). -/
def JsonRpcError.invalidParamsErr (message : String) : JsonRpcError :=
  { code := -32602, message := "Invalid params",
    data := some (.obj [("details", .str message)]) }

/-- `JsonRpcError::internal_error` (error.rs:94-100). -/
def JsonRpcError.internalErr (message : String) : JsonRpcError :=
  { code := -32603, message := "Internal error",
    data := some (.obj [("details", .str message)]) }

/-- `JsonRpcError::tool_error` (error.rs:103-109), code -32000. -/
def JsonRpcError.toolErrorJson (message : String) : JsonRpcError :=
  { code := -32000, message := "Tool execution error",
    data := some (.obj [("details", .str message)]) }

/-- `JsonRpcError::tool_not_found` (error.rs:111-117), code -32001. -/
def JsonRpcError.toolNotFoundJson (tool_name : String) : JsonRpcError :=
  { code := -32001, message := "Tool not found",
    data := some (.obj [("tool", .str tool_name)]) }

/-- `TransportError` (error.rs:37-50). -/
inductive TransportError where
  | stdinRead (e : String) : TransportError
  | stdoutWrite (e : String) : TransportError
  | webSocket (e : String) : TransportError
  | connectionClosed : TransportError
deriving DecidableEq, Repr

/-- The `Display` strings of `TransportError` (its `#[error(...)]`
attributes). -/
def TransportError.display : TransportError → String
  | .stdinRead e => "Chyba při čtení ze stdin: " ++ e
  | .stdoutWrite e => "Chyba při zápisu do stdout: " ++ e
  | .webSocket e => "WebSocket chyba: " ++ e
  | .connectionClosed => "Spojení uzavřeno"

/-- `McpError` (error.rs:4-35); `serialization` carries the display text of
the underlying `serde_json::Error`, `ioErr` that of the `std::io::Error`. -/
inductive McpError where
  | transport (e : TransportError) : McpError
  | protocol (m : String) : McpError
  | invalidMessage (m : String) : McpError
  | unknownMethod (m : String) : McpError
  | invalidParams (m : String) : McpError
  | internalError (m : String) : McpError
  | toolNotFound (m : String) : McpError
  | toolError (m : String) : McpError
  | serialization (m : String) : McpError
  | ioErr (m : String) : McpError
deriving DecidableEq, Repr

/-- `impl From<McpError> for JsonRpcError` (error.rs:128-143). -/
def mcpErrorToJsonRpc : McpError → JsonRpcError
  | .protocol _ => .invalidRequest
  | .invalidMessage _ => .parseError
  | .unknownMethod method => .methodNotFound method
  | .invalidParams m => .invalidParamsErr m
  | .toolNotFound tool => .toolNotFoundJson tool
  | .toolError m => .toolErrorJson m
  | .internalError m => .internalErr m
  | .serialization e => .internalErr e
  | .ioErr e => .internalErr e
  | .transport e => .internalErr e.display

/-- `McpResult<T>` (error.rs:145). -/
abbrev McpResult (T : Type) : Type := Except McpError T

/-- `JsonRpcRequest` (protocol.rs:6-14). -/
structure JsonRpcRequest where
  jsonrpc : String
  method : String
  params : Option JVal
  id : Option JVal

/-- `JsonRpcResponse` (protocol.rs:17-26). -/
structure JsonRpcResponse where
  jsonrpc : String
  result : Option JVal
  error : Option JsonRpcError
  id : Option JVal

/-- `JsonRpcResponse::success` (protocol.rs:29-36). -/
def JsonRpcResponse.success (id : Option JVal) (result : JVal) : JsonRpcResponse :=
  { jsonrpc := "2.0", result := some result, error := none, id := id }

/-- `JsonRpcResponse::error` (protocol.rs:38-45). -/
def JsonRpcResponse.errorResponse (id : Option JVal) (e : JsonRpcError) : JsonRpcResponse :=
  { jsonrpc := "2.0", result := none, error := some e, id := id }

/-- `McpMessage` (protocol.rs:217-222). -/
inductive McpMessage where
  | request (r : JsonRpcRequest) : McpMessage
  | response (r : JsonRpcResponse) : McpMessage
  | notification (r : JsonRpcRequest) : McpMessage

/-! ## Server state machine (src/mcp/server.rs, src/tools/registry.rs) -/

/-- The serde/registry collaborators of the server: parameter decoders
(`serde_json::from_value`), result encoders (`serde_json::to_value`), the
set of registered tool names, and each registered tool's executor,
description and schema. -/
structure ServerEnv where
  decInitParams : JVal → Except String InitParams
  decCallParams : JVal → Except String CallToolParams
  encInitResult : InitResult → Except String JVal
  encToolsList : List ToolDef → Except String JVal
  encCallResult : CallToolResult → Except String JVal
  tools : List String
  execTool : String → Option JVal → Except String CallToolResult
  toolDescription : String → String
  toolSchema : String → JVal

/-- The mutable fields of `McpServer` (server.rs:12-18). -/
structure ServerState where
  is_initialized : Bool
  client_info : Option ClientInfo

/-- `ToolRegistry::execute_tool` (registry.rs:150-171): a missing tool name
yields the boxed string error `Tool '{name}' nenalezen`. -/
def execute_tool (env : ServerEnv) (tool_name : String) (arguments : Option JVal) :
    Except String CallToolResult :=
  if tool_name ∈ env.tools then env.execTool tool_name arguments
  else .error ("Tool '" ++ tool_name ++ "' nenalezen")

/-- `McpServer::handle_initialize` (server.rs:127-166); `name`/`version` are
the configured server name and version. The protocol-version mismatch check
only logs, so it has no observable effect here. Also returns the list of
tool-registry dispatches (none). -/
def handleInit (env : ServerEnv) (name version : String)
    (params : Option JVal) (st : ServerState) :
    McpResult JVal × ServerState × List String :=
  match params with
  | none => (.error (.invalidParams "Chybí parametry pro initialize"), st, [])
  | some p =>
    match env.decInitParams p with
    | .error e => (.error (.invalidParams ("Neplatné parametry initialize: " ++ e)), st, [])
    | .ok ip =>
      match env.encInitResult (mkInitResult name version) with
      | .ok v => (.ok v, { client_info := some ip.client_info, is_initialized := true }, [])
      | .error e =>
        (.error (.serialization e), { client_info := some ip.client_info, is_initialized := true }, [])

/-- `McpServer::handle_tools_list` (server.rs:168-187): fails closed when
uninitialized; the params decode uses `unwrap_or_default` and cannot fail. -/
def handleToolsList (env : ServerEnv) (st : ServerState) (_params : Option JVal) :
    McpResult JVal × ServerState × List String :=
  if st.is_initialized = false then
    (.error (.protocol "Server není inicializován"), st, [])
  else
    match env.encToolsList (env.tools.map fun n =>
      ToolDef.mk n (env.toolDescription n) (env.toolSchema n)) with
    | .ok v => (.ok v, st, [])
    | .error e => (.error (.serialization e), st, [])

/-- `McpServer::handle_tools_call` (server.rs:189-210): fails closed when
uninitialized; a registry error is wrapped as `McpError::ToolError` of the
error's display text. The third component records each `execute_tool`
dispatch (by tool name). -/
def handleToolsCall (env : ServerEnv) (st : ServerState) (params : Option JVal) :
    McpResult JVal × ServerState × List String :=
  if st.is_initialized = false then
    (.error (.protocol "Server není inicializován"), st, [])
  else
    match params with
    | none => (.error (.invalidParams "Chybí parametry pro tools/call"), st, [])
    | some p =>
      match env.decCallParams p with
      | .error e => (.error (.invalidParams ("Neplatné parametry pro tools/call: " ++ e)), st, [])
      | .ok cp =>
        match execute_tool env cp.name cp.arguments with
        | .error e => (.error (.toolError e), st, [cp.name])
        | .ok result =>
          match env.encCallResult result with
          | .ok v => (.ok v, st, [cp.name])
          | .error e => (.error (.serialization e), st, [cp.name])

/-- The result wrap of `handle_request` (server.rs:104-107): success becomes
one success response, an error is converted through `From<McpError>` into
one error response. -/
def wrapStep (rid : Option JVal) :
    McpResult JVal × ServerState × List String →
    JsonRpcResponse × ServerState × List String
  | (.ok v, st₁, calls) => (JsonRpcResponse.success rid v, st₁, calls)
  | (.error e, st₁, calls) => (JsonRpcResponse.errorResponse rid (mcpErrorToJsonRpc e), st₁, calls)

/-- `McpServer::handle_request` (server.rs:93-108): dispatch on the method
name, then wrap the outcome into exactly one JSON-RPC response. -/
def handleRequest (env : ServerEnv) (name version : String)
    (r : JsonRpcRequest) (st : ServerState) :
    JsonRpcResponse × ServerState × List String :=
  wrapStep r.id
    (if r.method = "initialize" then handleInit env name version r.params st
     else if r.method = "tools/list" then handleToolsList env st r.params
     else if r.method = "tools/call" then handleToolsCall env st r.params
     else (.error (.unknownMethod r.method), st, []))

/-- `McpServer::handle_message` (server.rs:75-91): requests produce exactly
one response; notifications are handled without ever failing
(server.rs:110-125 returns `Ok` for every method); stray responses are only
logged. Transport `send` is modelled as the returned response list. -/
def handleMessage (env : ServerEnv) (name version : String)
    (m : McpMessage) (st : ServerState) :
    ServerState × List JsonRpcResponse × List String :=
  match m with
  | .request r =>
    match handleRequest env name version r st with
    | (resp, st₁, calls) => (st₁, [resp], calls)
  | .notification _ => (st, [], [])
  | .response _ => (st, [], [])

/-- One outcome of `Transport::receive`: either a message, or an error
(`ConnectionClosed` on EOF, `McpError::Serialization` for a line that is not
well-formed JSON-RPC, other transport failures otherwise). -/
inductive RecvOutcome where
  | msg (m : McpMessage) : RecvOutcome
  | recvErr (e : McpError) : RecvOutcome

/-- How a run of the session loop ended. -/
inductive LoopExit where
  | closed : LoopExit
  | errorBreak : LoopExit
  | pending : LoopExit
deriving DecidableEq, Repr

/-- `StdioTransport::receive` for one non-empty line (transport.rs:47-63):
`McpMessage::from_json` parses it; a parse failure propagates as
`McpError::Serialization` (via `?` and `#[from] serde_json::Error`).
`parseMsg` stands for the serde parse of the trimmed line. -/
def receiveLine (parseMsg : String → Except String McpMessage) (line : String) :
    RecvOutcome :=
  match parseMsg (rustTrim line) with
  | .ok m => .msg m
  | .error e => .recvErr (.serialization e)

/-- `McpServer::run` (server.rs:46-73) over a finite prefix of receive
outcomes: a received message is handled (errors of handling are logged and
the loop continues — with `send` modelled as always succeeding,
`handle_message` never fails); `ConnectionClosed` breaks the loop cleanly;
every other receive error also breaks the loop (`Err(e) => { error!(...);
break; }`). `.pending` marks the model artifact of running out of scripted
input while the session is still alive. -/
def runLoop (env : ServerEnv) (name version : String) :
    List RecvOutcome → ServerState → List JsonRpcResponse →
    ServerState × List JsonRpcResponse × LoopExit
  | [], st, out => (st, out, .pending)
  | .msg m :: rest, st, out =>
    match handleMessage env name version m st with
    | (st₁, resps, _) => runLoop env name version rest st₁ (out ++ resps)
  | .recvErr e :: _, st, out =>
    if e = McpError.transport TransportError.connectionClosed then (st, out, .closed)
    else (st, out, .errorBreak)

/-- Requests among a list of receive outcomes (each gets one response). -/
def countRequests : List RecvOutcome → Nat
  | [] => 0
  | .msg (.request _) :: rest => countRequests rest + 1
  | _ :: rest => countRequests rest

/-! ## Concrete instances used by witnesses and counterexamples -/

/-- The all-absent `list_issues` parameter set. -/
def issuesParamsDefault : ListIssuesParams :=
  { project_id := none, limit := none, offset := none, includes := none,
    easy_query_q := none, set_filter := none, sort := none,
    assigned_to_id := none, status_id := none, tracker_id := none, priority_id := none }

/-- A client with cache enabled and rate limiting disabled. -/
def clB : Client :=
  { base_url := "http://e", api_key := "k", cacheEnabled := true, rlEnabled := false }

/-- A client with cache and rate limiting enabled. -/
def clA : Client :=
  { base_url := "http://e", api_key := "k", cacheEnabled := true, rlEnabled := true }

/-- An empty client state. -/
def stEmpty : CState := { cache := [], acquires := 0, httpLog := [] }

/-- A pre-mutation cached issues listing (the stale value). -/
def oldIssues : IssuesResponse := { issues := [], total_count := some 1 }

/-- The post-mutation issues listing the upstream would return. -/
def newIssues : IssuesResponse := { issues := [issNeg], total_count := some 2 }

/-- A toy `serde_json::from_value::<IssuesResponse>`. -/
def decLB : JVal → Except String IssuesResponse := fun v =>
  match v with
  | .num 1 => .ok oldIssues
  | .num 2 => .ok newIssues
  | _ => .error "neodpovídá"

/-- A toy `serde_json::to_value::<IssuesResponse>` matching `decLB`. -/
def encLB : IssuesResponse → Except String JVal := fun r =>
  .ok (.num (if r = oldIssues then 1 else 2))

/-- The issue returned by the toy create call. -/
def createdIssueResp : IssueResponse := { issue := issNeg }

/-- A toy `serde_json::from_value::<IssueResponse>` for the create path. -/
def decIB : JVal → Except String IssueResponse := fun v =>
  match v with
  | .num 3 => .ok createdIssueResp
  | _ => .error "neodpovídá"

/-- Upstream for the C2 run: POST answers with a created issue, GET with the
current (post-mutation) listing. -/
def envB : Env :=
  { upstream := fun r =>
      if r.method = "POST" then .response 200 (.ok "CREATED")
      else .response 200 (.ok "LIST2"),
    parseJson := fun t =>
      if t = "CREATED" then .ok (.num 3)
      else if t = "LIST2" then .ok (.num 2) else .error "bad",
    statusDisplay := fun s => toString s }

/-- State before the C2 mutation: the default issues listing is cached. -/
def stB0 : CState :=
  { cache := [(listIssuesCacheKey issuesParamsDefault, JVal.num 1)],
    acquires := 0, httpLog := [] }

/-- State after the C2 `create_issue` call. -/
def stB1 : CState := (create_issue clB envB decIB (JVal.obj []) stB0).2

/-- Pre-update state of issue 5 (stale cached value in the C6 run). -/
def oldIssueResp : IssueResponse := { issue := { issNeg with subject := "old" } }

/-- Post-update (current) state of issue 5 in the C6 run. -/
def newIssueResp : IssueResponse := { issue := { issNeg with subject := "new" } }

/-- A toy `serde_json::from_value::<IssueResponse>` for the C6 run. -/
def decIC : JVal → Except String IssueResponse := fun v =>
  match v with
  | .num 1 => .ok oldIssueResp
  | .num 2 => .ok newIssueResp
  | _ => .error "neodpovídá"

/-- A toy `serde_json::to_value::<IssueResponse>` matching `decIC`. -/
def encIC : IssueResponse → Except String JVal := fun r =>
  .ok (.num (if r = oldIssueResp then 1 else 2))

/-- Upstream for the C6 run: the PUT succeeds with a whitespace-only body,
the GET returns the current issue state. -/
def envC : Env :=
  { upstream := fun r =>
      if r.method = "PUT" then .response 200 (.ok "  ")
      else .response 200 (.ok "CUR"),
    parseJson := fun t => if t = "CUR" then .ok (.num 2) else .error "bad",
    statusDisplay := fun s => toString s }

/-- C6 counterexample state: issue 5 is cached with its pre-update value. -/
def stC0 : CState := { cache := [("issue_5", JVal.num 1)], acquires := 0, httpLog := [] }

/-- State after the PUT of the C6 witness run (empty starting cache). -/
def stD1 : CState :=
  (execute_request clB envC (updateIssueReq clB 5 (JVal.obj [])) stEmpty).2

/-- State after the re-fetch GET of the C6 witness run. -/
def stD2 : CState := (execute_request clB envC (getIssueReq clB 5 none) stD1).2

/-- Scenario A parameters: `limit=25, offset=0, includeArchived=false`. -/
def paramsScA : ListProjectsParams :=
  { limit := some 25, offset := some 0, include_archived := some false,
    easy_query_q := none, set_filter := none, sort := none }

/-- The projects listing the Scenario A upstream returns. -/
def respA : ProjectsResponse := { projects := [{ id := 1, name := "P" }], total_count := some 1 }

/-- A toy `serde_json::to_value::<ProjectsResponse>` for Scenario A. -/
def encPA : ProjectsResponse → Except String JVal := fun _ => .ok (.num 7)

/-- A toy `serde_json::from_value::<ProjectsResponse>` matching `encPA`. -/
def decPA : JVal → Except String ProjectsResponse := fun v =>
  match v with
  | .num 7 => .ok respA
  | _ => .error "neodpovídá"

/-- Upstream for Scenario A. -/
def envA : Env :=
  { upstream := fun _ => .response 200 (.ok "PROJ"),
    parseJson := fun t => if t = "PROJ" then .ok (.num 7) else .error "bad",
    statusDisplay := fun s => toString s }

/-- State after the first Scenario A call (response now cached). -/
def stA1 : CState := (list_projects clA envA encPA decPA paramsScA stEmpty).2

/-- A request used by the C9 witness. -/
def reqW : Request :=
  { method := "GET", url := "http://e/x", query := [], headers := [], body := none }

/-- Upstream answering 204 with a whitespace-only body. -/
def envEmptyBody : Env :=
  { upstream := fun _ => .response 204 (.ok "  "),
    parseJson := fun _ => .error "EOF", statusDisplay := fun s => toString s }

/-- Upstream answering 200 with a body consisting of a single form feed
(U+000C), whitespace Rust trims but a naive ASCII-only model would not. -/
def envFormFeed : Env :=
  { upstream := fun _ => .response 200 (.ok "\x0C"),
    parseJson := fun _ => .error "EOF", statusDisplay := fun s => toString s }

/-- Upstream answering 404 with an error text body. -/
def envNotFound : Env :=
  { upstream := fun _ => .response 404 (.ok "nenalezeno"),
    parseJson := fun _ => .error "EOF", statusDisplay := fun s => toString s }

/-- A concrete server environment with one registered tool. -/
def trivialServerEnv : ServerEnv :=
  { decInitParams := fun v =>
      match v with
      | .obj [("client", .str n)] =>
        .ok { protocol_version := "2024-11-05", capabilities := .obj [],
              client_info := { name := n, version := "1.0" } }
      | _ => .error "neplatný formát",
    decCallParams := fun v =>
      match v with
      | .obj [("name", .str n)] => .ok { name := n, arguments := none }
      | _ => .error "neplatný formát",
    encInitResult := fun _ => .ok (.str "initres"),
    encToolsList := fun ts => .ok (.num ts.length),
    encCallResult := fun _ => .ok (.str "callres"),
    tools := ["list_projects"],
    execTool := fun _ _ => .ok { content := [], is_error := some false },
    toolDescription := fun _ => "d",
    toolSchema := fun _ => .obj [] }

/-- A fresh (uninitialized) server session. -/
def stStart : ServerState := { is_initialized := false, client_info := none }

/-- An initialized server session. -/
def stReady : ServerState := { is_initialized := true, client_info := none }

/-- A `tools/call` request naming an unregistered tool. -/
def reqUnknownTool : JsonRpcRequest :=
  { jsonrpc := "2.0", method := "tools/call",
    params := some (.obj [("name", .str "nonexistent_tool")]), id := some (.num 1) }

/-- The receive outcome of a transport line that is not well-formed
JSON-RPC: the serde parse fails, so `receive` yields
`McpError::Serialization`. -/
def badLineOutcome : RecvOutcome :=
  receiveLine (fun _ => .error "expected value at line 1 column 1") "tohle není JSON"

/-- A scripted notification message. -/
def noteMsg : McpMessage :=
  .notification { jsonrpc := "2.0", method := "notifications/initialized",
                  params := none, id := none }

/-- The enumerations computed against the 150-issue upstream. -/
def enums150 : IssueEnumerationsResponse :=
  match get_issue_enumerations fetch150 with
  | .ok o => o
  | .error _ => ⟨[], [], []⟩

/-! # Theorems -/

/-- An `alPut` is always found again by `alGet` under the same key. -/
theorem alGet_alPut_self (l : List (String × JVal)) (k : String) (v : JVal) :
    alGet (alPut l k v) k = some v := by
  induction l with
  | nil => simp [alPut, alGet]
  | cons p rest ih =>
    by_cases h : p.1 = k
    · simp [alPut, alGet, h]
    · simp [alPut, alGet, h, ih]

/-- C2. The claim that every mutating operation clears the whole cache is
false: `create_issue` (like `update_issue`, `create_project`,
`update_project` and `create_time_entry`) performs no invalidation, so a
successfully completed mutation leaves the cache intact and a subsequent
read with a previously cached key is answered with the pre-mutation cached
value. Concretely: the default `list_issues` listing is cached as
`oldIssues`; `create_issue` succeeds; the cache is unchanged; the next
`list_issues` returns `oldIssues` even though the upstream now serves
`newIssues`. -/
theorem c2_create_issue_keeps_cache :
    (create_issue clB envB decIB (JVal.obj []) stB0).1 = .ok createdIssueResp ∧
    stB1.cache = stB0.cache ∧
    (list_issues clB envB encLB decLB issuesParamsDefault stB1).1 = .ok oldIssues ∧
    oldIssues ≠ newIssues ∧
    decLB (JVal.num 2) = .ok newIssues :=
  ⟨rfl, rfl, rfl, by decide, rfl⟩

/-- C6 counterexample. With issue 5 present in the cache, the empty-body
re-fetch of `update_issue` is answered by `get_issue` *from the cache*: the
call returns the stale pre-update `oldIssueResp`, while the upstream's
current full state (what the GET would deliver) is `newIssueResp`. -/
theorem c6_counterexample_stale_refetch :
    (update_issue clB envC encIC decIC 5 (JVal.obj []) stC0).1 = .ok oldIssueResp ∧
    (envC.upstream (getIssueReq clB 5 none) = .response 200 (.ok "CUR") ∧
      envC.parseJson "CUR" = .ok (JVal.num 2) ∧
      decIC (JVal.num 2) = .ok newIssueResp) ∧
    oldIssueResp ≠ newIssueResp :=
  ⟨rfl, ⟨rfl, rfl, rfl⟩, by decide⟩

/-- C6 amended. When the PUT of `update_issue` succeeds with a body that
decodes to the empty JSON object, the client re-fetches the issue through
`get_issue` (never returning the empty object); the result equals the
issue's current upstream state whenever the cache does not hold an entry
for `issue_{id}` (with a stale cached entry it is the cached state — see
the counterexample). -/
theorem c6_amended_empty_body_refetch :
    ∀ (cl : Client) (env : Env) (enc : IssueResponse → Except String JVal)
      (dec : JVal → Except String IssueResponse) (id : Int) (d : JVal)
      (s s₁ : CState) (v : JVal),
      execute_request cl env (updateIssueReq cl id d) s = (.ok v, s₁) →
      v.isEmptyObj = true →
      (update_issue cl env enc dec id d s = get_issue cl env enc dec id none s₁) ∧
      (∀ (w : JVal) (s₂ : CState) (cur : IssueResponse) (jv : JVal),
        (if cl.cacheEnabled then alGet s₁.cache ("issue_" ++ toString id) else none) = none →
        execute_request cl env (getIssueReq cl id none) s₁ = (.ok w, s₂) →
        dec w = .ok cur →
        enc cur = .ok jv →
        (update_issue cl env enc dec id d s).1 = .ok cur) := by
  intro cl env enc dec id d s s₁ v hexec hempty
  constructor
  · unfold update_issue
    rw [hexec]
    simp [hempty]
  · intro w s₂ cur jv hmiss hget hdec henc
    unfold update_issue
    rw [hexec]
    simp only [hempty, if_true]
    unfold get_issue get_cached_or_fetch
    rw [hmiss]
    unfold getIssueFetch
    rw [hget]
    simp [parse_response, hdec, henc]
    split <;> simp

/-- C6 witness: a concrete empty-body update against an empty cache
re-fetches and returns the current issue state. -/
theorem c6_amended_witness :
    (update_issue clB envC encIC decIC 5 (JVal.obj []) stEmpty).1 = .ok newIssueResp :=
  (c6_amended_empty_body_refetch clB envC encIC decIC 5 (JVal.obj []) stEmpty stD1
      (JVal.obj []) rfl rfl).2
    (JVal.num 2) stD2 newIssueResp (JVal.num 2) rfl rfl rfl rfl

/-- C8. A read operation repeated with an identical parameter set, cache
enabled and the stored entry still present: the second call is answered
from the cache — the returned result equals the first call's result and the
state (cache contents, rate-limiter admissions, HTTP log) is left exactly
as the first call left it, so no HTTP request is issued and no limiter
token is consumed. Every list/get operation is `get_cached_or_fetch`
applied to its cache key and fetch closure, so this covers them all; `enc`
must round-trip through `dec` on the fetched value (serde for the derived
response types). -/
theorem c8_second_read_cached :
    ∀ {T : Type} (cl : Client) (enc : T → Except String JVal)
      (dec : JVal → Except String T) (cache_key : String)
      (fetch : CState → ApiResult T × CState) (s s₁ : CState) (t : T),
      cl.cacheEnabled = true →
      (∀ e, enc t = .ok e → dec e = .ok t) →
      get_cached_or_fetch cl enc dec cache_key fetch s = (.ok t, s₁) →
      get_cached_or_fetch cl enc dec cache_key fetch s₁ = (.ok t, s₁) := by
  intro T cl enc dec cache_key fetch s s₁ t hcache hrt hfirst
  unfold get_cached_or_fetch at hfirst
  split at hfirst
  next v heq =>
    rw [hcache] at heq
    simp only [eq_self_iff_true, if_true] at heq
    split at hfirst
    next t₁ hdec =>
      injection hfirst with h1 h2
      injection h1 with h1
      subst h1
      subst h2
      simp [get_cached_or_fetch, hcache, heq, hdec]
    next e hdec =>
      injection hfirst with h1 h2
      exact absurd h1 (by simp)
  next heq =>
    rw [hcache] at heq
    simp only [eq_self_iff_true, if_true] at heq
    split at hfirst
    next e s₂ hfetch =>
      injection hfirst with h1 h2
      exact absurd h1 (by simp)
    next tr s₂ hfetch =>
      rw [hcache] at hfirst
      simp only [eq_self_iff_true, if_true] at hfirst
      split at hfirst
      next val henc =>
        injection hfirst with h1 h2
        injection h1 with h1
        subst h1
        subst h2
        simp [get_cached_or_fetch, hcache, alGet_alPut_self, hrt val henc]
      next e henc =>
        injection hfirst with h1 h2
        exact absurd h1 (by simp)

/-- C8 witness (Scenario A): a second `list_projects(limit=25, offset=0,
includeArchived=false)` call is answered from the cache with the first
call's result and leaves the state untouched. -/
theorem c8_witness_scA :
    list_projects clA envA encPA decPA paramsScA stA1 = (.ok respA, stA1) :=
  c8_second_read_cached clA encPA decPA (listProjectsCacheKey paramsScA)
    (listProjectsFetch clA envA decPA paramsScA) stEmpty stA1 respA rfl
    (fun e he => by cases he; rfl) rfl

/-- C9. Classification of one HTTP exchange by `execute_request`: a 2xx
response with an empty or whitespace-only body yields the empty JSON
object; a 2xx response with a non-empty body is parsed as JSON and a parse
failure yields an API error whose message ends with the raw body; a non-2xx
response yields an API error carrying the numeric status code and the
best-effort body text ("Neznámá chyba" when the body cannot be read), and
its outcome does not depend on the JSON parser at all (non-2xx bodies are
never parsed as domain JSON). -/
theorem c9_execute_request_classification :
    ∀ (cl : Client) (env : Env) (req : Request) (s : CState),
      (∀ (status : Nat) (body : String),
        env.upstream req = .response status (.ok body) →
        (statusIsSuccess status = true → rustTrim body = "" →
          (execute_request cl env req s).1 = .ok (JVal.obj [])) ∧
        (∀ v, statusIsSuccess status = true → ¬ rustTrim body = "" →
          env.parseJson body = .ok v →
          (execute_request cl env req s).1 = .ok v) ∧
        (∀ e, statusIsSuccess status = true → ¬ rustTrim body = "" →
          env.parseJson body = .error e →
          (execute_request cl env req s).1 =
            .error (.api 500 ("Chyba parsování JSON: " ++ e ++ ". Response: " ++ body)) ∧
          ∃ pre, "Chyba parsování JSON: " ++ e ++ ". Response: " ++ body = pre ++ body) ∧
        (statusIsSuccess status = false →
          (execute_request cl env req s).1 =
            .error (.api status ("HTTP error " ++ env.statusDisplay status ++ ": " ++ body)))) ∧
      (∀ (status : Nat) (te : String),
        env.upstream req = .response status (.error te) →
        statusIsSuccess status = false →
        (execute_request cl env req s).1 =
          .error (.api status ("HTTP error " ++ env.statusDisplay status ++ ": " ++ "Neznámá chyba"))) ∧
      (∀ (env₂ : Env) (status : Nat) (t : Except String String),
        env.upstream req = .response status t →
        env₂.upstream req = .response status t →
        env₂.statusDisplay = env.statusDisplay →
        statusIsSuccess status = false →
        execute_request cl env₂ req s = execute_request cl env req s) := by
  intro cl env req s
  refine ⟨?_, ?_, ?_⟩
  · intro status body hup
    refine ⟨?_, ?_, ?_, ?_⟩
    · intro hsucc htrim
      unfold execute_request
      rw [hup]
      simp [hsucc, htrim]
    · intro v hsucc htrim hparse
      unfold execute_request
      rw [hup]
      simp [hsucc, htrim, hparse]
    · intro e hsucc htrim hparse
      constructor
      · unfold execute_request
        rw [hup]
        simp [hsucc, htrim, hparse]
      · exact ⟨"Chyba parsování JSON: " ++ e ++ ". Response: ", by simp⟩
    · intro hfail
      unfold execute_request
      rw [hup]
      simp [hfail]
  · intro status te hup hfail
    unfold execute_request
    rw [hup]
    simp [hfail]
  · intro env₂ status t hup hup₂ hdisp hfail
    unfold execute_request
    rw [hup, hup₂, hdisp]
    cases t <;> simp [hfail]

/-- C9 witness: a 204 response with a space-only body yields `{}`, so does
a 200 response whose body is a single form feed (U+000C, whitespace for
Rust's trim), and a 404 response yields the API error carrying 404 and the
body text. -/
theorem c9_witness :
    (execute_request clA envEmptyBody reqW stEmpty).1 = .ok (JVal.obj []) ∧
    (execute_request clA envFormFeed reqW stEmpty).1 = .ok (JVal.obj []) ∧
    (execute_request clA envNotFound reqW stEmpty).1 =
      .error (.api 404 ("HTTP error " ++ envNotFound.statusDisplay 404 ++ ": " ++ "nenalezeno")) :=
  ⟨((c9_execute_request_classification clA envEmptyBody reqW stEmpty).1 204 "  " rfl).1
      (by decide) (by decide),
    ((c9_execute_request_classification clA envFormFeed reqW stEmpty).1 200 "\x0C" rfl).1
      (by decide) (by decide),
    ((c9_execute_request_classification clA envNotFound reqW stEmpty).1 404 "nenalezeno"
      rfl).2.2.2 (by decide)⟩

/-- Helper for C3: a stream of well-formed messages is processed in full —
the loop is still alive afterwards and has produced exactly one response
per request. -/
theorem runLoop_all_msgs (env : ServerEnv) (name version : String) :
    ∀ (outs : List RecvOutcome) (st : ServerState) (out0 : List JsonRpcResponse),
      (∀ o ∈ outs, ∃ m, o = RecvOutcome.msg m) →
      (runLoop env name version outs st out0).2.2 = LoopExit.pending ∧
      (runLoop env name version outs st out0).2.1.length = out0.length + countRequests outs := by
  intro outs
  induction outs with
  | nil =>
    intro st out0 h
    simp [runLoop, countRequests]
  | cons o rest ih =>
    intro st out0 h
    obtain ⟨m, rfl⟩ := h o (by simp)
    have hrest : ∀ o ∈ rest, ∃ m, o = RecvOutcome.msg m := fun o ho => h o (by simp [ho])
    cases m with
    | request r =>
      cases hh : handleRequest env name version r st with
      | mk resp p =>
        cases p with
        | mk st₁ calls =>
          have hmain := ih st₁ (out0 ++ [resp]) hrest
          simp only [runLoop, handleMessage, hh] at hmain ⊢
          refine ⟨hmain.1, ?_⟩
          rw [hmain.2]
          simp [countRequests]
          omega
    | notification r =>
      have hmain := ih st (out0 ++ []) hrest
      simp only [runLoop, handleMessage] at hmain ⊢
      refine ⟨hmain.1, ?_⟩
      rw [hmain.2]
      simp [countRequests]
    | response r =>
      have hmain := ih st (out0 ++ []) hrest
      simp only [runLoop, handleMessage] at hmain ⊢
      refine ⟨hmain.1, ?_⟩
      rw [hmain.2]
      simp [countRequests]

/-- Helper for C3: the loop stops exactly at the first receive-side error,
keeps the responses produced so far, and exits cleanly only for
`ConnectionClosed`. -/
theorem runLoop_stops_at_err (env : ServerEnv) (name version : String) :
    ∀ (outs : List RecvOutcome) (st : ServerState) (out0 : List JsonRpcResponse)
      (e : McpError) (rest : List RecvOutcome),
      (∀ o ∈ outs, ∃ m, o = RecvOutcome.msg m) →
      runLoop env name version (outs ++ RecvOutcome.recvErr e :: rest) st out0 =
        ((runLoop env name version outs st out0).1,
         (runLoop env name version outs st out0).2.1,
         if e = McpError.transport TransportError.connectionClosed then LoopExit.closed
         else LoopExit.errorBreak) := by
  intro outs
  induction outs with
  | nil =>
    intro st out0 e rest h
    by_cases he : e = McpError.transport TransportError.connectionClosed <;>
      simp [runLoop, he]
  | cons o rest2 ih =>
    intro st out0 e rest h
    obtain ⟨m, rfl⟩ := h o (by simp)
    have hrest : ∀ o ∈ rest2, ∃ m, o = RecvOutcome.msg m := fun o ho => h o (by simp [ho])
    cases hh : handleMessage env name version m st with
    | mk st₁ p =>
      cases p with
      | mk resps calls =>
        simp only [List.cons_append, runLoop, hh]
        exact ih st₁ (out0 ++ resps) e rest hrest

/-- C3 counterexample. A transport line that is not well-formed JSON-RPC
surfaces as a `Serialization` receive error, and the session loop *does*
terminate on it (`Err(e) => break` in `McpServer::run`): no JSON-RPC error
response is emitted and the exit is not the connection-closure one. This
refutes the claim that only transport connection closure ends the loop. -/
theorem c3_counterexample_parse_error_ends_loop :
    runLoop trivialServerEnv "s" "1" [badLineOutcome] stStart [] =
      (stStart, [], LoopExit.errorBreak) ∧
    LoopExit.errorBreak ≠ LoopExit.closed :=
  ⟨rfl, by decide⟩

/-- C3 amended. Errors arising while *handling* a successfully received
message (protocol, tool, API, unknown method, bad params) never terminate
the loop: a stream of well-formed messages is processed to the end, each
request — however erroneous — yielding exactly one (possibly error)
response. But the loop is ended not only by connection closure: any
receive-side error, in particular a transport line that is not well-formed
JSON-RPC (a `Serialization` error), also breaks the loop, without a
JSON-RPC error response for that line. -/
theorem c3_amended_loop_termination :
    ∀ (env : ServerEnv) (name version : String) (outs : List RecvOutcome)
      (st : ServerState) (out0 : List JsonRpcResponse),
      (∀ o ∈ outs, ∃ m, o = RecvOutcome.msg m) →
      ((runLoop env name version outs st out0).2.2 = LoopExit.pending ∧
        (runLoop env name version outs st out0).2.1.length =
          out0.length + countRequests outs) ∧
      (∀ (e : McpError) (rest : List RecvOutcome),
        (runLoop env name version (outs ++ RecvOutcome.recvErr e :: rest) st out0).2.1 =
          (runLoop env name version outs st out0).2.1 ∧
        (runLoop env name version (outs ++ RecvOutcome.recvErr e :: rest) st out0).2.2 =
          (if e = McpError.transport TransportError.connectionClosed then LoopExit.closed
           else LoopExit.errorBreak)) := by
  intro env name version outs st out0 hm
  refine ⟨runLoop_all_msgs env name version outs st out0 hm, ?_⟩
  intro e rest
  rw [runLoop_stops_at_err env name version outs st out0 e rest hm]
  exact ⟨rfl, rfl⟩

/-- C3 witness: a one-notification stream leaves the session alive. -/
theorem c3_amended_witness :
    (runLoop trivialServerEnv "s" "1" [RecvOutcome.msg noteMsg] stStart []).2.2 =
      LoopExit.pending :=
  ((c3_amended_loop_termination trivialServerEnv "s" "1" [RecvOutcome.msg noteMsg]
      stStart [] (by intro o ho; simp at ho; exact ⟨noteMsg, ho⟩)).1).1

/-- C4 counterexample. A `tools/call` for an unregistered tool name, handled
in the Initialized state, yields a JSON-RPC error response with code
-32000 (`Tool execution error`), not -32001: the registry returns a plain
boxed string error which `handle_tools_call` wraps as `McpError::ToolError`,
and the `ToolNotFound → -32001` conversion path is never taken. -/
theorem c4_counterexample_unknown_tool_code :
    ((handleRequest trivialServerEnv "s" "1" reqUnknownTool stReady).1.error.map
        (fun e => e.code)) = some (-32000) ∧
    ((-32000 : Int) ≠ -32001) :=
  ⟨rfl, by decide⟩

/-- C4 amended. For every `tools/call` request in the Initialized state
whose decoded tool name is not registered, the server replies — without
crashing, leaving the session state unchanged — with the JSON-RPC error of
code -32000 ("Tool execution error") whose data carries the registry's
`Tool '{name}' nenalezen` message; the registry lookup is the sole
dispatch performed. -/
theorem c4_amended_unknown_tool_minus32000 :
    ∀ (env : ServerEnv) (name version : String) (st : ServerState)
      (r : JsonRpcRequest) (pv : JVal) (cp : CallToolParams),
      st.is_initialized = true →
      r.method = "tools/call" →
      r.params = some pv →
      env.decCallParams pv = .ok cp →
      cp.name ∉ env.tools →
      handleRequest env name version r st =
        (JsonRpcResponse.errorResponse r.id
          (JsonRpcError.toolErrorJson ("Tool '" ++ cp.name ++ "' nenalezen")), st, [cp.name]) ∧
      (JsonRpcError.toolErrorJson ("Tool '" ++ cp.name ++ "' nenalezen")).code = -32000 := by
  intro env name version st r pv cp hinit hm hp hdec hnot
  refine ⟨?_, rfl⟩
  simp [handleRequest, wrapStep, hm, handleToolsCall, hinit, hp, hdec, execute_tool, hnot,
    mcpErrorToJsonRpc]

/-- C4 witness: the concrete unregistered-tool call. -/
theorem c4_amended_witness :
    handleRequest trivialServerEnv "s" "1" reqUnknownTool stReady =
      (JsonRpcResponse.errorResponse reqUnknownTool.id
        (JsonRpcError.toolErrorJson ("Tool '" ++ "nonexistent_tool" ++ "' nenalezen")),
       stReady, ["nonexistent_tool"]) :=
  (c4_amended_unknown_tool_minus32000 trivialServerEnv "s" "1" stReady reqUnknownTool
      (JVal.obj [("name", JVal.str "nonexistent_tool")]) ⟨"nonexistent_tool", none⟩
      rfl rfl rfl rfl (by decide)).1

/-- C5. A `tools/list` or `tools/call` request received while the session is
Uninitialized is rejected with the protocol error ("Server není
inicializován", rendered as the JSON-RPC invalid-request error), nothing is
dispatched to the tool registry, and the state is unchanged, so that a
subsequent valid `initialize` request succeeds and transitions the session
to Initialized with the client identity recorded. -/
theorem c5_uninitialized_fail_closed :
    ∀ (env : ServerEnv) (name version : String) (st : ServerState) (r : JsonRpcRequest),
      st.is_initialized = false →
      (r.method = "tools/list" ∨ r.method = "tools/call") →
      (handleRequest env name version r st =
        (JsonRpcResponse.errorResponse r.id JsonRpcError.invalidRequest, st, [])) ∧
      (handleToolsCall env st r.params =
        (.error (.protocol "Server není inicializován"), st, [])) ∧
      (∀ (r₂ : JsonRpcRequest) (pv : JVal) (ip : InitParams) (v : JVal),
        r₂.method = "initialize" →
        r₂.params = some pv →
        env.decInitParams pv = .ok ip →
        env.encInitResult (mkInitResult name version) = .ok v →
        handleRequest env name version r₂ st =
          (JsonRpcResponse.success r₂.id v,
           { is_initialized := true, client_info := some ip.client_info }, [])) := by
  intro env name version st r hinit hm
  refine ⟨?_, ?_, ?_⟩
  · rcases hm with hm | hm
    · simp [handleRequest, wrapStep, hm, handleToolsList, hinit, mcpErrorToJsonRpc]
    · simp [handleRequest, wrapStep, hm, handleToolsCall, hinit, mcpErrorToJsonRpc]
  · simp [handleToolsCall, hinit]
  · intro r₂ pv ip v hm₂ hp₂ hdec henc
    simp [handleRequest, wrapStep, hm₂, handleInit, hp₂, hdec, henc]

/-- C5 witness: concrete rejected call before `initialize`, then a
successful `initialize` on the same (unchanged) session state. -/
theorem c5_witness :
    (handleRequest trivialServerEnv "s" "1" reqUnknownTool stStart =
      (JsonRpcResponse.errorResponse reqUnknownTool.id JsonRpcError.invalidRequest,
       stStart, [])) ∧
    (handleRequest trivialServerEnv "s" "1"
        { jsonrpc := "2.0", method := "initialize",
          params := some (JVal.obj [("client", JVal.str "claude")]),
          id := some (JVal.num 2) } stStart =
      (JsonRpcResponse.success (some (JVal.num 2)) (JVal.str "initres"),
       { is_initialized := true, client_info := some { name := "claude", version := "1.0" } },
       [])) := by
  have h := c5_uninitialized_fail_closed trivialServerEnv "s" "1" stStart reqUnknownTool
    rfl (Or.inr rfl)
  exact ⟨h.1, h.2.2
    { jsonrpc := "2.0", method := "initialize",
      params := some (JVal.obj [("client", JVal.str "claude")]), id := some (JVal.num 2) }
    (JVal.obj [("client", JVal.str "claude")])
    { protocol_version := "2024-11-05", capabilities := JVal.obj [],
      client_info := { name := "claude", version := "1.0" } }
    (JVal.str "initres") rfl rfl rfl rfl⟩

/-- The response wrap does not change the state component. -/
theorem wrapStep_state (rid : Option JVal)
    (step : McpResult JVal × ServerState × List String) :
    (wrapStep rid step).2.1 = step.2.1 := by
  rcases step with ⟨res, st₁, calls⟩
  cases res <;> rfl

/-- Every branch of `handle_initialize` leaves the flag set (it either sets
it to true or keeps the incoming state). -/
theorem handleInit_keeps_initialized (env : ServerEnv) (name version : String)
    (p : Option JVal) (st : ServerState) (h : st.is_initialized = true) :
    ((handleInit env name version p st).2.1).is_initialized = true := by
  unfold handleInit
  repeat' split
  all_goals first | exact h | rfl

/-- `handle_tools_list` never changes the session state. -/
theorem handleToolsList_state (env : ServerEnv) (st : ServerState) (p : Option JVal) :
    (handleToolsList env st p).2.1 = st := by
  unfold handleToolsList
  repeat' split
  all_goals rfl

/-- `handle_tools_call` never changes the session state. -/
theorem handleToolsCall_state (env : ServerEnv) (st : ServerState) (p : Option JVal) :
    (handleToolsCall env st p).2.1 = st := by
  unfold handleToolsCall execute_tool
  repeat' split
  all_goals rfl

/-- Helper for C10: no branch of `handle_request` ever resets the
initialized flag. -/
theorem handleRequest_keeps_initialized :
    ∀ (env : ServerEnv) (name version : String) (r : JsonRpcRequest) (st : ServerState),
      st.is_initialized = true →
      ((handleRequest env name version r st).2.1).is_initialized = true := by
  intro env name version r st h
  unfold handleRequest
  rw [wrapStep_state]
  split
  · exact handleInit_keeps_initialized env name version r.params st h
  · split
    · rw [handleToolsList_state]
      exact h
    · split
      · rw [handleToolsCall_state]
        exact h
      · exact h

/-- Helper for C10: `handle_message` preserves the initialized flag. -/
theorem handleMessage_keeps_initialized :
    ∀ (env : ServerEnv) (name version : String) (m : McpMessage) (st : ServerState),
      st.is_initialized = true →
      ((handleMessage env name version m st).1).is_initialized = true := by
  intro env name version m st h
  cases m with
  | request r =>
    have h₁ := handleRequest_keeps_initialized env name version r st h
    cases hh : handleRequest env name version r st with
    | mk resp p =>
      cases p with
      | mk st₁ calls =>
        rw [hh] at h₁
        simpa [handleMessage, hh] using h₁
  | notification r => simpa [handleMessage] using h
  | response r => simpa [handleMessage] using h

/-- Helper for C10: the whole session loop preserves the initialized flag. -/
theorem runLoop_keeps_initialized (env : ServerEnv) (name version : String) :
    ∀ (outs : List RecvOutcome) (st : ServerState) (out0 : List JsonRpcResponse),
      st.is_initialized = true →
      ((runLoop env name version outs st out0).1).is_initialized = true := by
  intro outs
  induction outs with
  | nil => intro st out0 h; simpa [runLoop] using h
  | cons o rest ih =>
    intro st out0 h
    cases o with
    | msg m =>
      have h₁ := handleMessage_keeps_initialized env name version m st h
      cases hh : handleMessage env name version m st with
      | mk st₁ p =>
        cases p with
        | mk resps calls =>
          rw [hh] at h₁
          simp only [runLoop, hh]
          exact ih st₁ (out0 ++ resps) (by simpa using h₁)
    | recvErr e =>
      simp only [runLoop]
      split <;> simpa using h

/-- C10. An `initialize` request received while the session is already
Initialized is processed again: the recorded client identity is
overwritten, a fresh capabilities/server-info result is returned, and the
session remains Initialized; moreover no handler — across every message
and the whole loop — ever resets the initialized flag back to false. -/
theorem c10_reinit_allowed_and_monotone :
    (∀ (env : ServerEnv) (name version : String) (st : ServerState)
       (rid : Option JVal) (pv : JVal) (ip : InitParams) (v : JVal),
       st.is_initialized = true →
       env.decInitParams pv = .ok ip →
       env.encInitResult (mkInitResult name version) = .ok v →
       handleRequest env name version
         { jsonrpc := "2.0", method := "initialize", params := some pv, id := rid } st =
         (JsonRpcResponse.success rid v,
          { is_initialized := true, client_info := some ip.client_info }, [])) ∧
    (∀ (env : ServerEnv) (name version : String) (m : McpMessage) (st : ServerState),
       st.is_initialized = true →
       ((handleMessage env name version m st).1).is_initialized = true) ∧
    (∀ (env : ServerEnv) (name version : String) (outs : List RecvOutcome)
       (st : ServerState) (out0 : List JsonRpcResponse),
       st.is_initialized = true →
       ((runLoop env name version outs st out0).1).is_initialized = true) := by
  refine ⟨?_, handleMessage_keeps_initialized, ?_⟩
  · intro env name version st rid pv ip v hinit hdec henc
    simp [handleRequest, wrapStep, handleInit, hdec, henc]
  · intro env name version outs st out0 h
    exact runLoop_keeps_initialized env name version outs st out0 h

/-- C10 witness: a concrete re-`initialize` on an already initialized
session overwrites the client identity and succeeds. -/
theorem c10_witness :
    handleRequest trivialServerEnv "s" "1"
      { jsonrpc := "2.0", method := "initialize",
        params := some (JVal.obj [("client", JVal.str "re")]), id := none } stReady =
      (JsonRpcResponse.success none (JVal.str "initres"),
       { is_initialized := true, client_info := some { name := "re", version := "1.0" } },
       []) :=
  c10_reinit_allowed_and_monotone.1 trivialServerEnv "s" "1" stReady none
    (JVal.obj [("client", JVal.str "re")])
    { protocol_version := "2024-11-05", capabilities := JVal.obj [],
      client_info := { name := "re", version := "1.0" } }
    (JVal.str "initres") rfl rfl rfl

/-- C1. Cache-key injectivity fails on the code: `list_users` drops its
`status` parameter from the key, so `status = None` and `status = Some "locked"`
— two different parameter sets whose outgoing queries differ — derive the
same cache key; and `list_projects` maps an absent `limit` and an explicit
`limit = 25` to the same key. -/
theorem c1_cache_key_collision :
    (usersParamsNoStatus ≠ usersParamsLocked ∧
      listUsersCacheKey usersParamsNoStatus = listUsersCacheKey usersParamsLocked) ∧
    (projectsParamsAbsent ≠ projectsParamsLimit25 ∧
      listProjectsCacheKey projectsParamsAbsent = listProjectsCacheKey projectsParamsLimit25) := by
  refine ⟨⟨by decide, rfl⟩, ⟨by decide, rfl⟩⟩

/-- Membership in the keys of a map after an insert. -/
theorem mem_map_fst_mapInsert (m : List (Int × String)) (k x : Int) (v : String) :
    x ∈ (mapInsert m k v).map Prod.fst ↔ x ∈ m.map Prod.fst ∨ x = k := by
  induction m with
  | nil => simp [mapInsert]
  | cons p rest ih =>
    by_cases h : p.1 = k
    · simp only [mapInsert, h, if_true, List.map_cons, List.mem_cons]
      tauto
    · simp only [mapInsert, h, if_false, List.map_cons, List.mem_cons, ih]
      tauto

/-- `mapInsert` preserves distinctness of the keys. -/
theorem nodup_map_fst_mapInsert (m : List (Int × String)) (k : Int) (v : String)
    (h : (m.map Prod.fst).Nodup) :
    ((mapInsert m k v).map Prod.fst).Nodup := by
  induction m with
  | nil => simp [mapInsert]
  | cons p rest ih =>
    simp only [List.map_cons, List.nodup_cons] at h
    by_cases hk : p.1 = k
    · simp only [mapInsert, hk, if_true, List.map_cons, List.nodup_cons]
      exact ⟨hk ▸ h.1, h.2⟩
    · simp only [mapInsert, hk, if_false, List.map_cons, List.nodup_cons]
      constructor
      · rw [mem_map_fst_mapInsert]
        rintro (hmem | heq)
        · exact h.1 hmem
        · exact hk heq
      · exact ih h.2

/-- `insertPage` preserves distinctness of the keys of all three maps. -/
theorem insertPage_nodup (issues : List Issue) :
    ∀ acc : EnumAcc,
      (acc.statuses.map Prod.fst).Nodup → (acc.priorities.map Prod.fst).Nodup →
      (acc.trackers.map Prod.fst).Nodup →
      ((insertPage acc issues).statuses.map Prod.fst).Nodup ∧
        ((insertPage acc issues).priorities.map Prod.fst).Nodup ∧
        ((insertPage acc issues).trackers.map Prod.fst).Nodup := by
  induction issues with
  | nil =>
    intro acc h1 h2 h3
    exact ⟨h1, h2, h3⟩
  | cons i rest ih =>
    intro acc h1 h2 h3
    have hstep := ih (insertIssue acc i)
      (nodup_map_fst_mapInsert _ _ _ h1)
      (nodup_map_fst_mapInsert _ _ _ h2)
      (nodup_map_fst_mapInsert _ _ _ h3)
    simpa [insertPage, List.foldl_cons] using hstep

/-- The scan loop preserves distinctness of the keys of all three maps. -/
theorem enumGo_nodup (fp : Nat → ApiResult IssuesResponse) :
    ∀ (remaining offset : Nat) (acc : EnumAcc) (fetches : Nat)
      (acc₁ : EnumAcc) (n : Nat) (r : StopReason),
      enumGo fp remaining offset acc fetches = .ok (acc₁, n, r) →
      (acc.statuses.map Prod.fst).Nodup → (acc.priorities.map Prod.fst).Nodup →
      (acc.trackers.map Prod.fst).Nodup →
      (acc₁.statuses.map Prod.fst).Nodup ∧ (acc₁.priorities.map Prod.fst).Nodup ∧
        (acc₁.trackers.map Prod.fst).Nodup := by
  intro remaining
  induction remaining with
  | zero =>
    intro offset acc fetches acc₁ n r h h1 h2 h3
    simp only [enumGo, Except.ok.injEq, Prod.mk.injEq] at h
    obtain ⟨rfl, -, -⟩ := h
    exact ⟨h1, h2, h3⟩
  | succ rem ih =>
    intro offset acc fetches acc₁ n r h h1 h2 h3
    rw [enumGo] at h
    split at h
    · exact absurd h (by simp)
    · rename_i resp heq
      split at h
      · simp only [Except.ok.injEq, Prod.mk.injEq] at h
        obtain ⟨rfl, -, -⟩ := h
        exact ⟨h1, h2, h3⟩
      · split at h
        · simp only [Except.ok.injEq, Prod.mk.injEq] at h
          obtain ⟨rfl, -, -⟩ := h
          exact insertPage_nodup resp.issues acc h1 h2 h3
        · have hsub := insertPage_nodup resp.issues acc h1 h2 h3
          exact ih _ _ _ acc₁ n r h hsub.1 hsub.2.1 hsub.2.2

/-- The code guard `offset + 100 >= total as u32` agrees with the integer
comparison of the claim whenever the total is a nonnegative `i32`. -/
theorem u32Guard_eq_intGuard (offset : Nat) (t : Int) (h0 : 0 ≤ t) (h1 : t < 2 ^ 31) :
    (offset + 100 ≥ u32OfI32 t) ↔ ((offset : Int) + 100 ≥ t) := by
  unfold u32OfI32
  omega

/-- `usize as i32` is the identity on small lengths. -/
theorem i32OfLen_small (n : Nat) (h : n < 2 ^ 31) : i32OfLen n = (n : Int) := by
  unfold i32OfLen
  omega

/-- Under nonnegative reported totals and small pages, the code's scan loop
computes exactly what the claim's stop rule computes. -/
theorem enumGo_eq_claimEnumGo (pages : Nat → IssuesResponse)
    (h2 : ∀ off t, (pages off).total_count = some t → 0 ≤ t ∧ t < 2 ^ 31)
    (h3 : ∀ off, (pages off).issues.length < 2 ^ 31) :
    ∀ (remaining offset : Nat) (acc : EnumAcc) (fetches : Nat),
      enumGo (fun off => .ok (pages off)) remaining offset acc fetches =
        claimEnumGo (fun off => .ok (pages off)) remaining offset acc fetches := by
  intro remaining
  induction remaining with
  | zero => intro offset acc fetches; rfl
  | succ rem ih =>
    intro offset acc fetches
    rw [enumGo, claimEnumGo]
    by_cases he : (pages offset).issues.isEmpty
    · simp [he]
    · have htot : 0 ≤ (pages offset).total_count.getD (i32OfLen (pages offset).issues.length) ∧
          (pages offset).total_count.getD (i32OfLen (pages offset).issues.length) < 2 ^ 31 := by
        cases htc : (pages offset).total_count with
        | some t =>
          rw [Option.getD_some]
          exact h2 offset t htc
        | none =>
          rw [Option.getD_none, i32OfLen_small _ (h3 offset)]
          exact ⟨Int.ofNat_nonneg _, by exact_mod_cast h3 offset⟩
      have hguard := u32Guard_eq_intGuard offset _ htot.1 htot.2
      by_cases hc : ((offset : Int) + 100) ≥
          (pages offset).total_count.getD (i32OfLen (pages offset).issues.length)
      · simp only [he, if_false]
        rw [if_pos (hguard.mpr hc), if_pos hc]
      · simp only [he, if_false]
        rw [if_neg (fun hcc => hc (hguard.mp hcc)), if_neg hc]
        exact ih (offset + 100) (insertPage acc (pages offset).issues) (fetches + 1)

/-- Every list produced by `toSortedList` is sorted ascending by id. -/
theorem toSortedList_sorted (m : List (Int × String)) :
    List.Sorted evLE (toSortedList m) :=
  List.sorted_insertionSort evLE _

/-- Projecting the ids of the converted entries recovers the map keys. -/
theorem map_id_of_map_mk (m : List (Int × String)) :
    ((m.map fun kv => ({ id := kv.1, name := kv.2 } : EnumerationValue)).map
        EnumerationValue.id) = m.map Prod.fst := by
  induction m with
  | nil => rfl
  | cons p rest ih => simp [ih]

/-- Distinct map keys give distinct ids in the sorted output. -/
theorem toSortedList_id_nodup (m : List (Int × String))
    (h : (m.map Prod.fst).Nodup) :
    ((toSortedList m).map EnumerationValue.id).Nodup := by
  unfold toSortedList
  have hperm :=
    (List.perm_insertionSort evLE (m.map fun kv => ({ id := kv.1, name := kv.2 } :
      EnumerationValue))).map EnumerationValue.id
  rw [hperm.nodup_iff, map_id_of_map_mk]
  exact h

/-- Helper for C7: whatever the pager does, a successful scan returns three
lists sorted ascending by id with pairwise distinct ids. -/
theorem get_issue_enumerations_sorted (fp : Nat → ApiResult IssuesResponse)
    (out : IssueEnumerationsResponse)
    (h : get_issue_enumerations fp = .ok out) :
    (List.Sorted evLE out.statuses ∧ (out.statuses.map EnumerationValue.id).Nodup) ∧
    (List.Sorted evLE out.priorities ∧ (out.priorities.map EnumerationValue.id).Nodup) ∧
    (List.Sorted evLE out.trackers ∧ (out.trackers.map EnumerationValue.id).Nodup) := by
  unfold get_issue_enumerations at h
  cases hr : enumRun fp with
  | error e =>
    rw [hr] at h
    exact absurd h (by simp)
  | ok t =>
    rcases t with ⟨acc, n, r⟩
    rw [hr] at h
    simp only [Except.ok.injEq] at h
    have hnd := enumGo_nodup fp 20 0 ⟨[], [], []⟩ 0 acc n r hr
      (by simp) (by simp) (by simp)
    subst h
    exact ⟨⟨toSortedList_sorted _, toSortedList_id_nodup _ hnd.1⟩,
      ⟨toSortedList_sorted _, toSortedList_id_nodup _ hnd.2.1⟩,
      ⟨toSortedList_sorted _, toSortedList_id_nodup _ hnd.2.2⟩⟩

/-- C7 counterexample. "For every upstream behavior" fails: an upstream
whose issue listing reports `total_count = -1` (a value the `i32` wire type
admits) defeats the total-count stop condition, because the code compares
`offset >= total as u32` and `(-1) as u32 = 4294967295`. The claim's rule
stops after 1 page (offset 100 has reached total -1); the code fetches 20
pages and stops only at the iteration cap. -/
theorem c7_counterexample_negative_total_count :
    enumFetches pagesNeg = some 20 ∧
    enumStop pagesNeg = some StopReason.cap ∧
    claimFetches pagesNeg = some 1 ∧
    enumFetches pagesNeg ≠ claimFetches pagesNeg := by
  refine ⟨by decide, by decide, by decide, by decide⟩

/-- C7 amended. Provided every page fetch succeeds, every reported
`total_count` is a *nonnegative* `i32` and pages are shorter than `2^31`:
the scan behaves exactly as claimed — it stops as soon as a page is empty,
or the running offset (100 per page) reaches the reported total count, or
20 pages were fetched. Unconditionally, a successful scan returns three
lists of distinct id→name pairs sorted ascending by id; and against the
150-issue upstream with page size 100 it performs exactly 2 page fetches,
stopping via the total-count condition, not the 20-page cap. -/
theorem c7_amended_enumeration_scan :
    (∀ (pages : Nat → IssuesResponse),
      (∀ off t, (pages off).total_count = some t → 0 ≤ t ∧ t < 2 ^ 31) →
      (∀ off, (pages off).issues.length < 2 ^ 31) →
      enumRun (fun off => .ok (pages off)) = claimEnumRun (fun off => .ok (pages off))) ∧
    (∀ (fp : Nat → ApiResult IssuesResponse) (out : IssueEnumerationsResponse),
      get_issue_enumerations fp = .ok out →
      (List.Sorted evLE out.statuses ∧ (out.statuses.map EnumerationValue.id).Nodup) ∧
      (List.Sorted evLE out.priorities ∧ (out.priorities.map EnumerationValue.id).Nodup) ∧
      (List.Sorted evLE out.trackers ∧ (out.trackers.map EnumerationValue.id).Nodup)) ∧
    (enumFetches fetch150 = some 2 ∧ enumStop fetch150 = some StopReason.totalReached ∧
      StopReason.totalReached ≠ StopReason.cap) := by
  refine ⟨?_, get_issue_enumerations_sorted, ⟨by decide, by decide, by decide⟩⟩
  intro pages h2 h3
  exact enumGo_eq_claimEnumGo pages h2 h3 20 0 ⟨[], [], []⟩ 0

/-- C7 witness: the 150-issue upstream satisfies the amended hypotheses,
its scan agrees with the claimed stop rule, and its status list comes out
sorted with distinct ids. -/
theorem c7_amended_witness :
    (enumRun (fun off => .ok (pages150 off)) =
      claimEnumRun (fun off => .ok (pages150 off))) ∧
    (List.Sorted evLE enums150.statuses ∧
      (enums150.statuses.map EnumerationValue.id).Nodup) := by
  constructor
  · exact c7_amended_enumeration_scan.1 pages150
      (fun off t h => by
        simp [pages150] at h
        omega)
      (fun off => by
        simp only [pages150, List.length_map, List.length_range]
        omega)
  · exact (c7_amended_enumeration_scan.2.1 fetch150 enums150 rfl).1

end EasyProj
